import Mathlib

/-!
Verification development for the ChatOutput component
(src/chatoutput.py): input normalization (convert_to_string,
_serialize_data, _validate_input) and message construction
(message_response, _build_source).

Shallow embedding conventions:
* Python strings are Lean `String`; `str.strip()` is `pyStrip`
  (removal of whitespace at both ends).
* A Python operation that may raise is modelled with `Except PyErr`
  or, for an opaque stringification, with `Option String`
  (`none` = the call raises).
* Opaque external values (list items fed to the external
  `safe_convert` capability, generators, tabular handles, nested
  payload values) are modelled at the granularity the code observes
  them: attribute presence as `Option`, fallible rendering as
  `Option String`.
* Leading underscores of the Python method names are dropped
  (`_serialize_data` becomes `serialize_data`, etc.).
-/

set_option autoImplicit false

namespace ChatOutput

/-- Characters removed by Python `str.strip()` (modelled with the
standard ASCII whitespace set). -/
def isWS (c : Char) : Bool := c.isWhitespace

/-- Strip whitespace from both ends of a character list. -/
def stripList (l : List Char) : List Char :=
  ((l.dropWhile isWS).reverse.dropWhile isWS).reverse

/-- Model of Python `str.strip()`: remove whitespace from both ends. -/
def pyStrip (s : String) : String := String.mk (stripList s.data)

/-- Error kinds a call can raise.  `valueError` models `ValueError`,
`typeError` models `TypeError`, `exc` models any other propagated
exception (for example a failing `str()` of a scalar payload value). -/
inductive PyErr where
  | valueError (msg : String)
  | typeError (msg : String)
  | exc
  deriving DecidableEq

/-- A nested Python value sitting in the `data` payload mapping of a
`Data` object.  The code only observes: `is None`, `== ""`,
`isinstance (dict, list)`, `str(v)` (which may raise) and `repr(v)`
(the debug form used as fallback, modelled total).  Nested dicts carry
their entry list so the same type can serve as the top level payload. -/
inductive PyVal where
  | vNone
  | vStr (s : String)
  | vDict (entries : List (String × PyVal)) (strRes : Option String) (reprRes : String)
  | vList (strRes : Option String) (reprRes : String)
  | vObj (strRes : Option String)

/-- Model of a langflow `Data` object as observed by
`_serialize_data`: the optional `value` attribute, the optional
`data` attribute (the payload; only a `vDict` is treated as a
mapping), and the result of `str(data)` (`none` = raises). -/
structure DataV where
  value : Option PyVal
  dataAttr : Option PyVal
  strRes : Option String

/-- One iteration of the payload loop of `_serialize_data`:
`ok none` means the entry is skipped (`v is None or v == ""`),
`ok (some line)` is the rendered `"{k}: {v_str}"` line, `error`
models a propagated exception from `str(v)` of a scalar value
(the dict/list case is protected by `try/except` and falls back to
`repr(v)`). -/
def serializeEntry (k : String) (v : PyVal) : Except PyErr (Option String) :=
  match v with
  | .vNone => .ok none
  | .vStr s => if s = "" then .ok none else .ok (some (k ++ ": " ++ s))
  | .vDict _ strRes reprRes => .ok (some (k ++ ": " ++ strRes.getD reprRes))
  | .vList strRes reprRes => .ok (some (k ++ ": " ++ strRes.getD reprRes))
  | .vObj strRes =>
      match strRes with
      | some s => .ok (some (k ++ ": " ++ s))
      | none => .error .exc

/-- The payload loop of `_serialize_data` over all entries, in order. -/
def serializeLines : List (String × PyVal) → Except PyErr (List String)
  | [] => .ok []
  | (k, v) :: rest =>
      match serializeEntry k v with
      | .error e => .error e
      | .ok line =>
          match serializeLines rest with
          | .error e => .error e
          | .ok restLines =>
              .ok (match line with
                   | some s => s :: restLines
                   | none => restLines)

/-- Model of `_serialize_data`: direct string `value` attribute wins
(trimmed); else a dict payload is rendered line by line and the join
is trimmed (empty line list gives the empty string); else fall back to
`str(data).strip()`, or the empty string if that raises. -/
def serialize_data (d : DataV) : Except PyErr String :=
  match d.value with
  | some (.vStr s) => .ok (pyStrip s)
  | _ =>
      match d.dataAttr with
      | some (.vDict entries _ _) =>
          match serializeLines entries with
          | .error e => .error e
          | .ok lines =>
              .ok (if lines.isEmpty then "" else pyStrip (String.intercalate "\n" lines))
      | _ => .ok ((d.strRes.map pyStrip).getD "")

/-- An opaque generator (lazy text stream).  Only identity matters:
the code passes it through unconsumed. -/
structure Gen where
  tag : Nat
  deriving DecidableEq

/-- The value a langflow Message carries in its `text` field, as the
code observes it: absent (`None`), a string, or a generator that was
stored there by a previous `message_response` run. -/
inductive TextVal where
  | noneV
  | strV (s : String)
  | genV (g : Gen)

/-- Provenance value object built by `_build_source`.  Absent fields
are omitted (`none`), never null-filled. -/
structure Source where
  id : Option String
  display_name : Option String
  source : Option String

/-- Message properties.  `rest` stands for the remaining properties
fields the code never touches. -/
structure Properties where
  source : Source
  icon : Option String
  background_color : Option String
  text_color : Option String
  rest : String

/-- Model of a langflow `Message` entity.  `entityId` models Python
object identity (a fresh construction gets a fresh id, in-place reuse
keeps the id); `rest` stands for every field the code never touches
(timestamp, files, ...). -/
structure Message where
  entityId : Nat
  text : TextVal
  sender : String
  sender_name : String
  session_id : String
  flow_id : Option String
  properties : Properties
  rest : String

/-- An opaque tabular handle (`df_obj`): the result of
`df_obj.head().to_string()` (`none` = raises; `head()` renders the
first 5 rows by the pandas default) and the total `str(df_obj)`. -/
structure TabHandle where
  headToString : Option String
  strRes : String

/-- Model of a langflow `DataFrame` input as observed by
`convert_to_string`: the two conventional attributes tried in order,
and `str(self.input_value)` as last resort. -/
structure DataFrameV where
  df : Option TabHandle
  value : Option TabHandle
  strRes : String

/-- The runtime shapes `input_value` can take.  `Item` is the opaque
type of list elements (they are only ever handed to the external
`safe_convert` capability).  `vOther` is any runtime type outside the
recognized set, carrying its type name. -/
inductive InputValue (Item : Type) where
  | vNone
  | vStr (s : String)
  | vMsg (m : Message)
  | vData (d : DataV)
  | vFrame (f : DataFrameV)
  | vList (items : List Item)
  | vGen (g : Gen)
  | vOther (typeName : String)

/-- The component state read by `convert_to_string` and
`message_response` (the declared inputs plus the ambient
`self.graph.flow_id`, which is `none` when no graph is attached). -/
structure ChatState (Item : Type) where
  input_value : InputValue Item
  should_store_message : Bool
  sender : String
  sender_name : String
  session_id : String
  data_template : String
  background_color : Option String
  chat_icon : Option String
  text_color : Option String
  clean_data : Bool
  graph_flow_id : Option String

/-- The message of the `TypeError` raised by `_validate_input`. -/
def unsupportedMsg (typeName : String) : String :=
  "Expected Data, DataFrame, Message, str, list, Generator or None, got " ++ typeName

/-- Model of `_validate_input`: `None` is rejected first with
`ValueError`; a runtime type outside the recognized set is rejected
with `TypeError` naming the type; everything else passes. -/
def validate_input {Item : Type} : InputValue Item → Except PyErr Unit
  | .vNone => .error (.valueError "Input data cannot be None")
  | .vOther typeName => .error (.typeError (unsupportedMsg typeName))
  | _ => .ok ()

/-- Result of `convert_to_string`: a finished string or the
pass-through generator. -/
inductive ConvResult where
  | text (s : String)
  | stream (g : Gen)

/-- The Message branch of `convert_to_string`:
`(self.input_value.text or "").strip()`.  A `None` text is replaced by
`""`; a generator stored in `text` is truthy, and calling `.strip()`
on it raises (`AttributeError`), modelled as `exc`. -/
def stripMsgText : TextVal → Except PyErr String
  | .noneV => .ok ""
  | .strV s => .ok (pyStrip s)
  | .genV _ => .error .exc

/-- Model of `convert_to_string`: validate, then dispatch on the
runtime shape.  The list branch converts each item through the
external `safe_convert` capability `sc` with the `clean_data` flag,
keeps the non-`None` results, strips each and joins with newline.
The final two arms are unreachable because `validate_input` already
rejected those shapes; they restate the raised errors. -/
def convert_to_string {Item : Type} (sc : Item → Bool → Option String)
    (st : ChatState Item) : Except PyErr ConvResult :=
  match validate_input st.input_value with
  | .error e => .error e
  | .ok _ =>
      match st.input_value with
      | .vList items =>
          let parts := items.map (fun i => sc i st.clean_data)
          .ok (.text (String.intercalate "\n" (parts.filterMap (fun p => p.map pyStrip))))
      | .vGen g => .ok (.stream g)
      | .vData d =>
          match serialize_data d with
          | .error e => .error e
          | .ok s => .ok (.text s)
      | .vMsg m =>
          match stripMsgText m.text with
          | .error e => .error e
          | .ok s => .ok (.text s)
      | .vFrame f =>
          .ok (.text
            (match (match f.df with | some h => some h | none => f.value) with
             | some h => h.headToString.getD h.strRes
             | none => f.strRes))
      | .vStr s => .ok (.text (pyStrip s))
      | .vNone => .error (.valueError "Input data cannot be None")
      | .vOther typeName => .error (.typeError (unsupportedMsg typeName))

/-- The `source` argument of `_build_source` at runtime: absent, a
plain string (truthy iff nonempty, no model attributes), or an object
(truthy) with optional `model_name` and `model` attributes (the
`model` attribute is carried already rendered through `str`) and its
own `str(source)` rendering. -/
inductive SrcArg where
  | noneV
  | strV (s : String)
  | objV (model_name : Option String) (model : Option String) (strRes : String)

/-- Model of `_build_source`: each field is set only when the
corresponding argument is truthy; the source label prefers the
`model_name` attribute, then the `model` attribute rendered as text,
then the own text rendering of the object. -/
def build_source (id_ : Option String) (display_name : Option String)
    (src : SrcArg) : Source :=
  { id := match id_ with
      | some s => if s = "" then none else some s
      | none => none
    display_name := match display_name with
      | some s => if s = "" then none else some s
      | none => none
    source := match src with
      | .noneV => none
      | .strV s => if s = "" then none else some s
      | .objV model_name model strRes =>
          some (match model_name with
                | some mn => mn
                | none => match model with
                    | some m => m
                    | none => strRes) }

/-- The metadata tuple returned by the external
`get_properties_from_source_component` capability. -/
structure SourceMeta where
  source : SrcArg
  icon : Option String
  display_name : Option String
  source_id : Option String

/-- Store a `convert_to_string` result into a `text` field. -/
def textValOfConv : ConvResult → TextVal
  | .text s => .strV s
  | .stream g => .genV g

/-- A fresh `Message(text=text)` construction: new entity id, default
fields. -/
def freshMessage (freshId : Nat) (tv : TextVal) : Message :=
  { entityId := freshId
    text := tv
    sender := ""
    sender_name := ""
    session_id := ""
    flow_id := none
    properties :=
      { source := { id := none, display_name := none, source := none }
        icon := none
        background_color := none
        text_color := none
        rest := "" }
    rest := "" }

/-- The working entity just before the persistence step of
`message_response`: reuse the input entity when the input is a
`Message` (overwriting `text` in place), otherwise construct a fresh
one; then set sender, names, session, flow id and properties.  The
explicit `chat_icon` overrides the resolved icon when truthy. -/
def builtMessage {Item : Type} (st : ChatState Item) (meta : SourceMeta)
    (freshId : Nat) (tr : ConvResult) : Message :=
  let icon := match st.chat_icon with
    | some s => if s = "" then meta.icon else some s
    | none => meta.icon
  let base := match st.input_value with
    | .vMsg m => m
    | _ => freshMessage freshId (textValOfConv tr)
  { base with
    text := textValOfConv tr
    sender := st.sender
    sender_name := st.sender_name
    session_id := st.session_id
    flow_id := st.graph_flow_id
    properties :=
      { base.properties with
        source := build_source meta.source_id meta.display_name meta.source
        icon := icon
        background_color := st.background_color
        text_color := st.text_color } }

/-- Result of `message_response`: the returned entity, whether the
persistence capability was invoked, and the entity stored into
`self.status`. -/
structure BuildResult where
  message : Message
  persisted : Bool
  status : Message

/-- Model of `message_response`: normalize the input, build the
working entity, then persist exactly when the session id is nonempty
and storing is enabled, in which case the persisted entity replaces
the working one. -/
def message_response {Item : Type} (sc : Item → Bool → Option String)
    (st : ChatState Item) (meta : SourceMeta) (persist : Message → Message)
    (freshId : Nat) : Except PyErr BuildResult :=
  match convert_to_string sc st with
  | .error e => .error e
  | .ok tr =>
      let msg := builtMessage st meta freshId tr
      if st.session_id ≠ "" ∧ st.should_store_message = true then
        let stored := persist msg
        .ok { message := stored, persisted := true, status := stored }
      else
        .ok { message := msg, persisted := false, status := msg }

/-- Whether a character list has no whitespace at either end. -/
def noEdgeWSList (l : List Char) : Bool :=
  (match l.head? with | some c => !isWS c | none => true) &&
  (match l.reverse.head? with | some c => !isWS c | none => true)

/-- Whether a string has no leading or trailing whitespace. -/
def noEdgeWS (s : String) : Bool := noEdgeWSList s.data

/-- Total per-entry renderer characterizing the payload loop when no
entry aborts: skipped entries give `none`, nested dict/list values
render through `str` with the `repr` debug form as fallback, scalar
objects render through `str` alone. -/
def entryLine (k : String) (v : PyVal) : Option String :=
  match v with
  | .vNone => none
  | .vStr s => if s = "" then none else some (k ++ ": " ++ s)
  | .vDict _ strRes reprRes => some (k ++ ": " ++ strRes.getD reprRes)
  | .vList strRes reprRes => some (k ++ ": " ++ strRes.getD reprRes)
  | .vObj strRes => strRes.map (fun s => k ++ ": " ++ s)

/-- Whether a payload value is a scalar object (the only shape whose
stringification failure is not protected by the loop). -/
def scalarObj : PyVal → Bool
  | .vObj _ => true
  | _ => false

/-- The three dispatch paths whose output the trimmed-output claim
covers: plain text, chat message and record inputs. -/
def textyInput {Item : Type} : InputValue Item → Bool
  | .vStr _ => true
  | .vMsg _ => true
  | .vData _ => true
  | _ => false

/-- Total form of the Message branch when the stored text is not a
generator. -/
def msgTextStrip : TextVal → String
  | .noneV => ""
  | .strV s => pyStrip s
  | .genV _ => ""

/-- Python truthiness filter on an optional string: `None` and the
empty string are falsy. -/
def truthyOpt : Option String → Option String
  | some s => if s = "" then none else some s
  | none => none

/-- Modelled from the words of claim C1 (the spec sentence "with any
item yielding null/empty excluded"): drop null conversions, strip
each, exclude empty strings, join with newline.  Compared against the
list branch of `convert_to_string`. -/
def spec_list_normalize (parts : List (Option String)) : String :=
  String.intercalate "\n" (((parts.filterMap id).map pyStrip).filter (fun s => !(s == "")))

/-- A base component state for concrete runs. -/
def baseSt (iv : InputValue Nat) : ChatState Nat :=
  { input_value := iv
    should_store_message := true
    sender := "Machine"
    sender_name := "AI"
    session_id := "sess"
    data_template := "{text}"
    background_color := none
    chat_icon := none
    text_color := none
    clean_data := true
    graph_flow_id := none }

/-- A concrete stand-in for the external `safe_convert` capability. -/
def scDefault : Nat → Bool → Option String := fun n _ => some (toString n)

/-- Default metadata for concrete runs. -/
def metaDefault : SourceMeta :=
  { source := .noneV, icon := none, display_name := none, source_id := none }

/-- Conversion capability for the C1 counterexample: item 0 converts
to a nonempty string, every other item converts to the empty string. -/
def scC1 : Nat → Bool → Option String := fun n _ => if n = 0 then some "x" else some ""

/-- List input for the C1 counterexample. -/
def stC1 : ChatState Nat := baseSt (.vList [0, 1])

/-- Record whose payload has a nested dict value whose `str` raises
(so the `repr` debug form "DBG" is used), between two plain entries. -/
def dW2 : DataV :=
  { value := none
    dataAttr := some (.vDict
      [("a", .vStr "x"), ("b", .vDict [] none "DBG"), ("c", .vStr "y")] none "")
    strRes := some "unused" }

/-- State for the C2 witness. -/
def stW2 : ChatState Nat := baseSt (.vData dW2)

/-- State for the C3 witness: an unrecognized runtime type. -/
def stW3 : ChatState Nat := baseSt (.vOther "int")

/-- The record of claim C4: no direct string value attribute and
payload `{"a": "x", "b": "", "c": None, "d": "y"}`. -/
def dC4 : DataV :=
  { value := none
    dataAttr := some (.vDict
      [("a", .vStr "x"), ("b", .vStr ""), ("c", .vNone), ("d", .vStr "y")] none "")
    strRes := some "unused" }

/-- State for claim C4. -/
def stC4 : ChatState Nat := baseSt (.vData dC4)

/-- State for the C5 witness: text input, nonempty session, storing
enabled. -/
def stW5 : ChatState Nat := baseSt (.vStr " x ")

/-- A persistence capability returning a distinguishable entity. -/
def persistW5 : Message → Message := fun m => { m with rest := "persisted" }

/-- The normalization result of `stW5`. -/
def trW5 : ConvResult := .text "x"

/-- The expected outcome of the C5 witness run. -/
def rW5 : BuildResult :=
  { message := persistW5 (builtMessage stW5 metaDefault 7 trW5)
    persisted := true
    status := persistW5 (builtMessage stW5 metaDefault 7 trW5) }

/-- An input message entity with untouched extra fields. -/
def mW6 : Message :=
  { entityId := 42
    text := .strV "  hi  "
    sender := "User"
    sender_name := "someone"
    session_id := "old"
    flow_id := some "oldflow"
    properties :=
      { source := { id := some "i", display_name := none, source := none }
        icon := some "old"
        background_color := none
        text_color := none
        rest := "propkeep" }
    rest := "keep-me" }

/-- State for the C6 witness: message input, empty session id (so no
persistence). -/
def stW6 : ChatState Nat := { baseSt (.vMsg mW6) with session_id := "" }

/-- The expected outcome of the C6 witness run. -/
def rW6 : BuildResult :=
  { message := builtMessage stW6 metaDefault 7 (.text "hi")
    persisted := false
    status := builtMessage stW6 metaDefault 7 (.text "hi") }

/-- A frame whose `df` attribute is present and previews fine. -/
def fW7 : DataFrameV :=
  { df := some { headToString := some "col\n0  1", strRes := "DF" }
    value := none
    strRes := "FRAME" }

/-- State for the C7 witness. -/
def stW7 : ChatState Nat := baseSt (.vFrame fW7)

/-- Conversion capability for the C9 list example: item 0 converts to
the empty string, item 1 to a nonempty string, so the join has a
leading newline. -/
def scC9L : Nat → Bool → Option String := fun n _ => if n = 0 then some "" else some "x"

/-- List state for the C9 untrimmed-output example. -/
def stC9L : ChatState Nat := baseSt (.vList [0, 1])

/-- Frame state for the C9 untrimmed-output example: the preview text
has whitespace at both ends and is returned as-is. -/
def stC9F : ChatState Nat :=
  baseSt (.vFrame
    { df := some { headToString := some " a\n0 1 ", strRes := "DF" }
      value := none
      strRes := "FRAME" })

/-- Text state for the C9 witness. -/
def stW9 : ChatState Nat := baseSt (.vStr " x ")

theorem dropWhile_head_false {α : Type} (p : α → Bool) (l : List α) (a : α)
    (r : List α) (h : l.dropWhile p = a :: r) : p a = false := by
  induction l with
  | nil => simp [List.dropWhile] at h
  | cons b t ih =>
    by_cases hb : p b = true
    · rw [List.dropWhile_cons, if_pos hb] at h
      exact ih h
    · rw [List.dropWhile_cons, if_neg hb] at h
      cases h
      simpa using hb

theorem dropWhile_exists_append {α : Type} (p : α → Bool) (l : List α) :
    ∃ t, t ++ l.dropWhile p = l := by
  induction l with
  | nil => exact ⟨[], rfl⟩
  | cons b t ih =>
    by_cases hb : p b = true
    · obtain ⟨u, hu⟩ := ih
      refine ⟨b :: u, ?_⟩
      rw [List.dropWhile_cons, if_pos hb, List.cons_append, hu]
    · refine ⟨[], ?_⟩
      rw [List.dropWhile_cons, if_neg hb, List.nil_append]

theorem noEdgeWSList_stripList (l : List Char) :
    noEdgeWSList (stripList l) = true := by
  unfold noEdgeWSList stripList
  rw [Bool.and_eq_true]
  constructor
  · cases hBr : ((l.dropWhile isWS).reverse.dropWhile isWS).reverse with
    | nil => simp
    | cons c r =>
      obtain ⟨t, ht⟩ := dropWhile_exists_append isWS (l.dropWhile isWS).reverse
      have hA : l.dropWhile isWS =
          ((l.dropWhile isWS).reverse.dropWhile isWS).reverse ++ t.reverse := by
        have h2 := congrArg List.reverse ht
        simpa using h2.symm
      have hhead : l.dropWhile isWS = c :: (r ++ t.reverse) := by
        rw [hA, hBr, List.cons_append]
      have hc := dropWhile_head_false isWS l c (r ++ t.reverse) hhead
      simp [hBr, hc]
  · rw [List.reverse_reverse]
    cases hBc : (l.dropWhile isWS).reverse.dropWhile isWS with
    | nil => simp [hBc]
    | cons c r =>
      have hc := dropWhile_head_false isWS (l.dropWhile isWS).reverse c r hBc
      simp [hBc, hc]

theorem noEdgeWS_pyStrip (s : String) : noEdgeWS (pyStrip s) = true :=
  noEdgeWSList_stripList s.data

theorem noEdgeWS_empty : noEdgeWS "" = true := rfl

theorem serializeEntry_error (k : String) (v : PyVal) (e : PyErr)
    (h : serializeEntry k v = .error e) : e = .exc := by
  cases v with
  | vNone => simp [serializeEntry] at h
  | vStr s =>
    by_cases hs : s = "" <;> simp [serializeEntry, hs] at h
  | vDict entries strRes reprRes => simp [serializeEntry] at h
  | vList strRes reprRes => simp [serializeEntry] at h
  | vObj strRes =>
    cases strRes with
    | none => simpa [serializeEntry] using h.symm
    | some s => simp [serializeEntry] at h

theorem serializeLines_error (entries : List (String × PyVal)) (e : PyErr)
    (h : serializeLines entries = .error e) : e = .exc := by
  induction entries with
  | nil => simp [serializeLines] at h
  | cons kv rest ih =>
    obtain ⟨k, v⟩ := kv
    unfold serializeLines at h
    cases he : serializeEntry k v with
    | error e2 =>
      rw [he] at h
      cases h
      exact serializeEntry_error k v e he
    | ok line =>
      rw [he] at h
      cases hr : serializeLines rest with
      | error e2 =>
        rw [hr] at h
        cases h
        exact ih hr
      | ok restLines =>
        rw [hr] at h
        cases h

theorem serializeEntry_ok_of_not_obj (k : String) (v : PyVal)
    (h : scalarObj v = false) : serializeEntry k v = .ok (entryLine k v) := by
  cases v with
  | vNone => rfl
  | vStr s => by_cases hs : s = "" <;> simp [serializeEntry, entryLine, hs]
  | vDict entries strRes reprRes => rfl
  | vList strRes reprRes => rfl
  | vObj strRes => simp [scalarObj] at h

theorem serializeLines_ok_of_not_obj (entries : List (String × PyVal))
    (h : ∀ kv ∈ entries, scalarObj kv.2 = false) :
    serializeLines entries = .ok (entries.filterMap (fun kv => entryLine kv.1 kv.2)) := by
  induction entries with
  | nil => rfl
  | cons kv rest ih =>
    obtain ⟨k, v⟩ := kv
    have hv : scalarObj v = false := h (k, v) (List.mem_cons_self _ _)
    have hrest : ∀ kv ∈ rest, scalarObj kv.2 = false :=
      fun kv hkv => h kv (List.mem_cons_of_mem _ hkv)
    unfold serializeLines
    rw [serializeEntry_ok_of_not_obj k v hv, ih hrest, List.filterMap_cons]
    cases hline : entryLine k v <;> simp [hline]

theorem serialize_data_ok_noEdge (d : DataV) (s : String)
    (h : serialize_data d = .ok s) : noEdgeWS s = true := by
  unfold serialize_data at h
  split at h
  · cases h
    exact noEdgeWS_pyStrip _
  · split at h
    · split at h
      · cases h
      · cases h
        split
        · exact noEdgeWS_empty
        · exact noEdgeWS_pyStrip _
    · cases h
      cases d.strRes with
      | some str => exact noEdgeWS_pyStrip str
      | none => exact noEdgeWS_empty

theorem serialize_data_error (d : DataV) (e : PyErr)
    (h : serialize_data d = .error e) : e = .exc := by
  unfold serialize_data at h
  split at h
  · cases h
  · split at h
    · split at h
      · rename_i heq
        cases h
        exact serializeLines_error _ _ heq
      · cases h
    · cases h

theorem stripMsgText_error (tv : TextVal) (e : PyErr)
    (h : stripMsgText tv = .error e) : e = .exc := by
  cases tv with
  | noneV => cases h
  | strV s => cases h
  | genV g => exact (Except.error.inj h).symm

/-- Claim C4: a Record with no direct string value field and payload
mapping containing "a" mapped to "x", "b" mapped to the empty string,
"c" mapped to null and "d" mapped to "y" normalizes to exactly
"a: x\nd: y": null and empty entries are skipped, the remaining ones
are rendered as key-colon-value lines joined with newline in key
order, trimmed. -/
theorem claim_C4 : convert_to_string scDefault stC4 = .ok (.text "a: x\nd: y") := rfl

/-- Claim C8: the data_template configuration value never influences
normalization: two runs on states differing only in data_template
return identical results. -/
theorem claim_C8 {Item : Type} (sc : Item → Bool → Option String)
    (st : ChatState Item) (t1 t2 : String) :
    convert_to_string sc { st with data_template := t1 } =
      convert_to_string sc { st with data_template := t2 } := rfl

/-- Claim C10: source construction treats empty strings like absent
values: the id and display name fields appear exactly when the
argument is truthy (with the argument value), and the source label,
present exactly when the source argument is truthy, prefers the
model_name attribute, then the model attribute rendered as text, then
the objects own text rendering. -/
theorem claim_C10 (id_ display_name : Option String) (src : SrcArg) :
    (build_source id_ display_name src).id = truthyOpt id_ ∧
    (build_source id_ display_name src).display_name = truthyOpt display_name ∧
    (build_source id_ display_name src).source =
      (match src with
       | .noneV => none
       | .strV s => truthyOpt (some s)
       | .objV mn mo strRes => some (mn.getD (mo.getD strRes))) := by
  refine ⟨?_, ?_, ?_⟩
  · cases id_ with
    | none => rfl
    | some s => by_cases hs : s = "" <;> simp [build_source, truthyOpt, hs]
  · cases display_name with
    | none => rfl
    | some s => by_cases hs : s = "" <;> simp [build_source, truthyOpt, hs]
  · cases src with
    | noneV => rfl
    | strV s => by_cases hs : s = "" <;> simp [build_source, truthyOpt, hs]
    | objV mn mo strRes => cases mn <;> cases mo <;> rfl

/-- Claim C1 fails as stated: on a two-element list whose second
element converts to the empty string, the code keeps the empty
conversion as an empty joined line and returns "x\n", while the
claimed exclusion of empty conversions would return "x". -/
theorem claim_C1_counterexample :
    convert_to_string scC1 stC1 = .ok (.text "x\n") ∧
    spec_list_normalize ([0, 1].map (fun i => scC1 i stC1.clean_data)) = "x" ∧
    ("x\n" : String) ≠ "x" :=
  ⟨rfl, rfl, by decide⟩

/-- Claim C1 as amended: for every list input, each element is
converted through the safe_convert capability with the clean_data
flag, conversions that are null are dropped, each remaining
conversion is stripped of whitespace and the results are joined with
newline in element order; a conversion that is the empty string (or
whitespace only) is kept as an empty line rather than excluded; the
empty list yields the empty string. -/
theorem claim_C1_amended {Item : Type} (sc : Item → Bool → Option String)
    (st : ChatState Item) (items : List Item) (h : st.input_value = .vList items) :
    convert_to_string sc st =
      .ok (.text (String.intercalate "\n"
        ((items.filterMap (fun i => sc i st.clean_data)).map pyStrip))) := by
  have key : ∀ (l : List Item),
      (l.map (fun i => sc i st.clean_data)).filterMap (fun p => p.map pyStrip) =
        (l.filterMap (fun i => sc i st.clean_data)).map pyStrip := by
    intro l
    induction l with
    | nil => rfl
    | cons a t ih =>
      cases ha : sc a st.clean_data <;>
        simp [List.filterMap_cons, ha, ih]
  unfold convert_to_string
  rw [h]
  simp [validate_input, key items]

/-- Witness for the amended claim C1 at the concrete counterexample
input. -/
theorem claim_C1_amended_witness :
    convert_to_string scC1 stC1 =
      .ok (.text (String.intercalate "\n"
        (([0, 1].filterMap (fun i => scC1 i stC1.clean_data)).map pyStrip))) :=
  claim_C1_amended scC1 stC1 [0, 1] rfl

/-- Claim C3: normalization raises ValueError exactly when the input
is null, raises TypeError naming the offending runtime type exactly
when the input is non-null and of an unrecognized type (the null
check taking priority), and validation never raises any other error
kind. -/
theorem claim_C3 {Item : Type} (sc : Item → Bool → Option String)
    (st : ChatState Item) :
    ((∃ m, convert_to_string sc st = .error (.valueError m)) ↔
      st.input_value = .vNone) ∧
    (st.input_value = .vNone →
      convert_to_string sc st = .error (.valueError "Input data cannot be None")) ∧
    ((∃ m, convert_to_string sc st = .error (.typeError m)) ↔
      ∃ tn, st.input_value = .vOther tn) ∧
    (∀ tn, st.input_value = .vOther tn →
      convert_to_string sc st = .error (.typeError (unsupportedMsg tn))) ∧
    (∀ e, validate_input st.input_value = .error e →
      (∃ m, e = .valueError m) ∨ (∃ m, e = .typeError m)) := by
  cases hiv : st.input_value with
  | vNone =>
    refine ⟨?_, ?_, ?_, ?_, ?_⟩ <;>
      simp [convert_to_string, validate_input, hiv]
  | vOther tn =>
    refine ⟨?_, ?_, ?_, ?_, ?_⟩ <;>
      simp [convert_to_string, validate_input, hiv, unsupportedMsg]
  | vStr s =>
    refine ⟨?_, ?_, ?_, ?_, ?_⟩ <;>
      simp [convert_to_string, validate_input, hiv]
  | vGen g =>
    refine ⟨?_, ?_, ?_, ?_, ?_⟩ <;>
      simp [convert_to_string, validate_input, hiv]
  | vList items =>
    refine ⟨?_, ?_, ?_, ?_, ?_⟩ <;>
      simp [convert_to_string, validate_input, hiv]
  | vFrame f =>
    refine ⟨?_, ?_, ?_, ?_, ?_⟩ <;>
      simp [convert_to_string, validate_input, hiv]
  | vData d =>
    cases hs : serialize_data d with
    | error e =>
      have he := serialize_data_error d e hs
      subst he
      refine ⟨?_, ?_, ?_, ?_, ?_⟩ <;>
        simp [convert_to_string, validate_input, hiv, hs]
    | ok s =>
      refine ⟨?_, ?_, ?_, ?_, ?_⟩ <;>
        simp [convert_to_string, validate_input, hiv, hs]
  | vMsg m =>
    cases hm : stripMsgText m.text with
    | error e =>
      have he := stripMsgText_error m.text e hm
      subst he
      refine ⟨?_, ?_, ?_, ?_, ?_⟩ <;>
        simp [convert_to_string, validate_input, hiv, hm]
    | ok s =>
      refine ⟨?_, ?_, ?_, ?_, ?_⟩ <;>
        simp [convert_to_string, validate_input, hiv, hm]

/-- Witness for claim C3 at a concrete unrecognized runtime type. -/
theorem claim_C3_witness :
    convert_to_string scDefault stW3 = .error (.typeError (unsupportedMsg "int")) :=
  (claim_C3 scDefault stW3).2.2.2.1 "int" rfl

/-- Claim C7: for a tabular frame input, normalization tries the df
attribute first and then the value attribute; a found handle is
previewed through head-to-string with the handles default text form
as fallback on failure; with no handle the frame values own text form
is returned. -/
theorem claim_C7 {Item : Type} (sc : Item → Bool → Option String)
    (st : ChatState Item) (f : DataFrameV) (hf : st.input_value = .vFrame f) :
    (∀ h, f.df = some h →
      convert_to_string sc st = .ok (.text (h.headToString.getD h.strRes))) ∧
    (∀ h, f.df = none → f.value = some h →
      convert_to_string sc st = .ok (.text (h.headToString.getD h.strRes))) ∧
    (f.df = none → f.value = none →
      convert_to_string sc st = .ok (.text f.strRes)) := by
  refine ⟨?_, ?_, ?_⟩
  · intro h hdf
    simp [convert_to_string, validate_input, hf, hdf]
  · intro h hdf hv
    simp [convert_to_string, validate_input, hf, hdf, hv]
  · intro hdf hv
    simp [convert_to_string, validate_input, hf, hdf, hv]

/-- Witness for claim C7 at a concrete frame whose df attribute holds
a handle that previews fine. -/
theorem claim_C7_witness : convert_to_string scDefault stW7 = .ok (.text "col\n0  1") :=
  (claim_C7 scDefault stW7 fW7 rfl).1
    { headToString := some "col\n0  1", strRes := "DF" } rfl

/-- Claim C2: on the payload-entries rendering path, a failure while
stringifying a nested (dict or list) entry value never aborts
normalization and never propagates: the value degrades to its debug
text form and every entry is still rendered independently. -/
theorem claim_C2 {Item : Type} (sc : Item → Bool → Option String)
    (st : ChatState Item) (d : DataV) (entries : List (String × PyVal))
    (sr : Option String) (rr : String)
    (hd : st.input_value = .vData d)
    (hv : ∀ s, d.value ≠ some (.vStr s))
    (hp : d.dataAttr = some (.vDict entries sr rr))
    (hno : ∀ kv ∈ entries, scalarObj kv.2 = false) :
    convert_to_string sc st =
      .ok (.text
        (if (entries.filterMap (fun kv => entryLine kv.1 kv.2)).isEmpty then ""
         else pyStrip (String.intercalate "\n"
           (entries.filterMap (fun kv => entryLine kv.1 kv.2))))) := by
  have hlines := serializeLines_ok_of_not_obj entries hno
  have hsd : serialize_data d =
      .ok (if (entries.filterMap (fun kv => entryLine kv.1 kv.2)).isEmpty then ""
           else pyStrip (String.intercalate "\n"
             (entries.filterMap (fun kv => entryLine kv.1 kv.2)))) := by
    unfold serialize_data
    cases hval : d.value with
    | none => simp [hp, hlines]
    | some v =>
      cases v with
      | vStr s => exact absurd hval (hv s)
      | vNone => simp [hp, hlines]
      | vDict e2 a b => simp [hp, hlines]
      | vList a b => simp [hp, hlines]
      | vObj a => simp [hp, hlines]
  simp [convert_to_string, validate_input, hd, hsd]

/-- Witness for claim C2: the middle payload entry is a nested dict
whose stringification fails; it renders through its debug form DBG
and the surrounding entries still render. -/
theorem claim_C2_witness : convert_to_string scDefault stW2 = .ok (.text "a: x\nb: DBG\nc: y") := by
  have h := claim_C2 scDefault stW2 dW2
    [("a", .vStr "x"), ("b", .vDict [] none "DBG"), ("c", .vStr "y")] none "" rfl
    (by intro s hs; simp [dW2] at hs) rfl (by decide)
  exact h

/-- Claim C9: the Text, ChatMessage and Record dispatch paths only
return strings with no leading or trailing whitespace, while the List
and TabularFrame paths do not have this invariant (witnessed by a
list run returning a string with a leading newline and a frame run
returning an untrimmed preview). -/
theorem claim_C9 :
    (∀ (Item : Type) (sc : Item → Bool → Option String) (st : ChatState Item)
        (s : String), textyInput st.input_value = true →
        convert_to_string sc st = .ok (.text s) → noEdgeWS s = true) ∧
    (convert_to_string scC9L stC9L = .ok (.text "\nx") ∧ noEdgeWS "\nx" = false) ∧
    (convert_to_string scDefault stC9F = .ok (.text " a\n0 1 ") ∧
      noEdgeWS " a\n0 1 " = false) := by
  refine ⟨?_, ⟨rfl, rfl⟩, ⟨rfl, rfl⟩⟩
  intro Item sc st s hty hconv
  cases hiv : st.input_value with
  | vStr s2 =>
    simp [convert_to_string, validate_input, hiv] at hconv
    rw [← hconv]
    exact noEdgeWS_pyStrip s2
  | vMsg m =>
    cases htv : m.text with
    | noneV =>
      simp [convert_to_string, validate_input, hiv, stripMsgText, htv] at hconv
      rw [← hconv]
      exact noEdgeWS_empty
    | strV s2 =>
      simp [convert_to_string, validate_input, hiv, stripMsgText, htv] at hconv
      rw [← hconv]
      exact noEdgeWS_pyStrip s2
    | genV g =>
      simp [convert_to_string, validate_input, hiv, stripMsgText, htv] at hconv
  | vData d =>
    cases hs : serialize_data d with
    | error e =>
      simp [convert_to_string, validate_input, hiv, hs] at hconv
    | ok s2 =>
      simp [convert_to_string, validate_input, hiv, hs] at hconv
      rw [← hconv]
      exact serialize_data_ok_noEdge d s2 hs
  | vNone => rw [hiv] at hty; cases hty
  | vGen g => rw [hiv] at hty; cases hty
  | vList items => rw [hiv] at hty; cases hty
  | vFrame f => rw [hiv] at hty; cases hty
  | vOther tn => rw [hiv] at hty; cases hty

/-- Witness for claim C9 at a concrete text input. -/
theorem claim_C9_witness :
    convert_to_string scDefault stW9 = .ok (.text "x") ∧ noEdgeWS "x" = true :=
  ⟨rfl, claim_C9.1 Nat scDefault stW9 "x" rfl rfl⟩

/-- Claim C5: the persistence capability is invoked exactly when the
session id is nonempty and storing is enabled; when invoked, the
persisted entity replaces the working entity and is returned;
otherwise the locally constructed entity is returned. -/
theorem claim_C5 {Item : Type} (sc : Item → Bool → Option String)
    (st : ChatState Item) (meta : SourceMeta) (persist : Message → Message)
    (freshId : Nat) (tr : ConvResult) (r : BuildResult)
    (hc : convert_to_string sc st = .ok tr)
    (h : message_response sc st meta persist freshId = .ok r) :
    (r.persisted = true ↔ st.session_id ≠ "" ∧ st.should_store_message = true) ∧
    (r.persisted = true → r.message = persist (builtMessage st meta freshId tr)) ∧
    (r.persisted = false → r.message = builtMessage st meta freshId tr) := by
  by_cases hcond : st.session_id ≠ "" ∧ st.should_store_message = true
  · have hmr : message_response sc st meta persist freshId =
        .ok { message := persist (builtMessage st meta freshId tr)
              persisted := true
              status := persist (builtMessage st meta freshId tr) } := by
      unfold message_response
      rw [hc]
      simp only [if_pos hcond]
    rw [hmr] at h
    cases h
    refine ⟨by simp [hcond], ?_, ?_⟩
    · intro _
      rfl
    · intro hfalse
      exact Bool.noConfusion hfalse
  · have hmr : message_response sc st meta persist freshId =
        .ok { message := builtMessage st meta freshId tr
              persisted := false
              status := builtMessage st meta freshId tr } := by
      unfold message_response
      rw [hc]
      simp only [if_neg hcond]
    rw [hmr] at h
    cases h
    refine ⟨by simp [hcond], ?_, ?_⟩
    · intro htrue
      exact Bool.noConfusion htrue
    · intro _
      rfl

/-- Witness for claim C5: a text input with nonempty session id and
storing enabled returns the persisted entity. -/
theorem claim_C5_witness :
    rW5.persisted = true ∧
    rW5.message = persistW5 (builtMessage stW5 metaDefault 7 trW5) := by
  have h := claim_C5 scDefault stW5 metaDefault persistW5 7 trW5 rW5 rfl rfl
  exact ⟨h.1.mpr ⟨by decide, rfl⟩, h.2.1 (h.1.mpr ⟨by decide, rfl⟩)⟩

/-- Claim C6: when the input is a chat message and persistence does
not occur, the returned entity is the same entity (identity
preserved), its text field is overwritten with the normalized text,
and every field outside the overwritten set is unchanged. -/
theorem claim_C6 {Item : Type} (sc : Item → Bool → Option String)
    (st : ChatState Item) (meta : SourceMeta) (persist : Message → Message)
    (freshId : Nat) (m : Message) (r : BuildResult)
    (him : st.input_value = .vMsg m)
    (hng : ∀ g, m.text ≠ .genV g)
    (hnp : ¬(st.session_id ≠ "" ∧ st.should_store_message = true))
    (h : message_response sc st meta persist freshId = .ok r) :
    r.persisted = false ∧
    r.message.entityId = m.entityId ∧
    r.message.rest = m.rest ∧
    r.message.text = .strV (msgTextStrip m.text) := by
  have hconv : convert_to_string sc st = .ok (.text (msgTextStrip m.text)) := by
    cases htv : m.text with
    | noneV =>
      simp [convert_to_string, validate_input, him, stripMsgText, htv, msgTextStrip]
    | strV s =>
      simp [convert_to_string, validate_input, him, stripMsgText, htv, msgTextStrip]
    | genV g => exact absurd htv (hng g)
  have hmr : message_response sc st meta persist freshId =
      .ok { message := builtMessage st meta freshId (.text (msgTextStrip m.text))
            persisted := false
            status := builtMessage st meta freshId (.text (msgTextStrip m.text)) } := by
    unfold message_response
    rw [hconv]
    simp only [if_neg hnp]
  rw [hmr] at h
  cases h
  refine ⟨rfl, ?_, ?_, ?_⟩
  · simp [builtMessage, him]
  · simp [builtMessage, him]
  · simp [builtMessage, him, textValOfConv]

/-- Witness for claim C6: a concrete message entity with an empty
session id keeps its identity and untouched fields and gets its text
overwritten with the trimmed normalization result. -/
theorem claim_C6_witness :
    rW6.persisted = false ∧
    rW6.message.entityId = 42 ∧
    rW6.message.rest = "keep-me" ∧
    rW6.message.text = .strV "hi" := by
  have h := claim_C6 scDefault stW6 metaDefault persistW5 7 mW6 rW6 rfl
    (by intro g hg; simp [mW6] at hg) (by simp [stW6, baseSt]) rfl
  exact h

end ChatOutput
